import Mathlib

/-!
# Verification of the steamapi session/ingestion/consensus engine

A shallow embedding of the database-backed operations in `src/api/lib.py`
(session lifecycle, late-bytes patching, API-key rotation, demo listing)
together with the `reviews` table contract from the `analysis` migration.

The database is modelled as lists of rows; timestamps are naturals; blob
storage is the list of allocated large-object oids.  Each Python helper
that issues SQL becomes a pure function on the `DB` state; helpers that
can raise (via `scalar_one_or_none`) or that the surrounding HTTP handlers
guard with error responses return `Except DBError`.
-/

namespace SteamApi

/-- Error taxonomy surfaced by the operations under verification. -/
inductive DBError where
  | notFound
  | sessionAlreadyActive
  | duplicateReview
  | unknownSubject
  | multipleResults
deriving DecidableEq

/-- One row of the `api_keys` table: `steam_id, api_key, created_at, updated_at`. -/
structure ApiKeyRow where
  steam_id : String
  api_key : String
  created_at : Nat
  updated_at : Nat
deriving DecidableEq

/-- One row of the `demo_sessions` table, columns in the order assumed by
`DemoWrapper.from_db_row`. -/
structure SessionRow where
  session_id : String
  api_key : String
  demo_name : String
  active : Bool
  start_time : Nat
  end_time : Option Nat
  fake_ip : String
  map : String
  steam_api_data : Option String
  ingested : Bool
  demo_oid : Option Nat
  late_bytes : Option (List Nat)
  created_at : Nat
  updated_at : Nat
deriving DecidableEq

/-- One row of the `reviews` table created by migration `b941ebee3091`;
its PRIMARY KEY is `(session_id, target_steam_id, reviewer_steam_id)`. -/
structure ReviewRow where
  session_id : String
  target_steam_id : String
  reviewer_steam_id : String
  created_at : Nat
  verdict : String
deriving DecidableEq

/-- One row of the `analysis` table created by migration `b941ebee3091`;
its PRIMARY KEY is `(session_id, target_steam_id)`. -/
structure AnalysisRow where
  session_id : String
  target_steam_id : String
  created_at : Nat
  detection_count : Nat
deriving DecidableEq

/-- The shared persistent store: relational tables plus the large-object
store (`blobs` is the set of oids that have been written; `nextOid` the
next oid postgres would allocate). -/
structure DB where
  api_keys : List ApiKeyRow
  demo_sessions : List SessionRow
  reviews : List ReviewRow
  analysis : List AnalysisRow
  blobs : List Nat
  nextOid : Nat
deriving DecidableEq

/-- `SELECT MAX(c) FROM ...` over a list of naturals: `none` models SQL NULL
on an empty selection. -/
def maxNat? : List Nat → Option Nat
  | [] => none
  | x :: xs =>
    match maxNat? xs with
    | none => some x
    | some m => some (if x ≤ m then m else x)

/-- `_check_is_active`: `SELECT * FROM demo_sessions WHERE api_key = :api_key
and active = true;` — true iff any row matched. -/
def _check_is_active (db : DB) (api_key : String) : Bool :=
  db.demo_sessions.any (fun r => r.api_key == api_key && r.active)

/-- `_start_session`: INSERT a new `demo_sessions` row with `active=true`,
`end_time`, `steam_api_data`, `demo_oid`, `late_bytes` NULL, `ingested=false`,
and `start_time = created_at = updated_at = now`. -/
def _start_session (db : DB) (api_key session_id demo_name fake_ip map_str : String)
    (now : Nat) : DB :=
  { db with demo_sessions := db.demo_sessions ++ [{
      session_id := session_id
      api_key := api_key
      demo_name := demo_name
      active := true
      start_time := now
      end_time := none
      fake_ip := fake_ip
      map := map_str
      steam_api_data := none
      ingested := false
      demo_oid := none
      late_bytes := none
      created_at := now
      updated_at := now }] }

/-- The row transform applied by `_close_session`'s UPDATE SET clause. -/
def closeRow (t : Nat) (r : SessionRow) : SessionRow :=
  { r with active := false, end_time := some t, updated_at := t }

/-- `_close_session`: `UPDATE demo_sessions SET active = False, end_time = :t,
updated_at = :t WHERE active = True AND api_key = :api_key;`. -/
def _close_session (db : DB) (api_key : String) (current_time : Nat) : DB :=
  { db with demo_sessions := db.demo_sessions.map (fun r =>
      if r.active && r.api_key == api_key then closeRow current_time r else r) }

/-- The large-object write `conn.connection.lobject(mode="w", new_file=demo_path)`:
allocates a fresh oid, persists the blob, returns the updated store and the oid. -/
def writeBlob (db : DB) : DB × Nat :=
  ({ db with blobs := db.blobs ++ [db.nextOid], nextOid := db.nextOid + 1 }, db.nextOid)

/-- The UPDATE statement of `_close_session_with_demo`: sets `active=false`,
`end_time`, `demo_oid`, `updated_at` on rows matching `(api_key, session_id)`. -/
def updateSessionWithDemo (db : DB) (api_key session_id : String) (t oid : Nat) : DB :=
  { db with demo_sessions := db.demo_sessions.map (fun r =>
      if r.api_key == api_key && r.session_id == session_id then
        { r with active := false, end_time := some t, demo_oid := some oid, updated_at := t }
      else r) }

/-- `_close_session_with_demo`: first the lobject (blob) write obtains the
oid, then the session-row UPDATE references it. -/
def _close_session_with_demo (db : DB) (api_key session_id : String)
    (current_time : Nat) : DB :=
  updateSessionWithDemo (writeBlob db).1 api_key session_id current_time (writeBlob db).2

/-- The sequence of store states observable during `_close_session_with_demo`:
initial, after the blob write, after the row UPDATE (in source order). -/
def closeWithDemoStates (db : DB) (api_key session_id : String)
    (current_time : Nat) : List DB :=
  [db, (writeBlob db).1, _close_session_with_demo db api_key session_id current_time]

/-- `_late_bytes`: `UPDATE demo_sessions SET late_bytes = :b, updated_at = :t
WHERE api_key = :k AND updated_at = (SELECT MAX(updated_at) FROM demo_sessions
WHERE api_key = :k);`. -/
def _late_bytes (db : DB) (api_key : String) (lateB : List Nat) (current_time : Nat) : DB :=
  let m := maxNat? ((db.demo_sessions.filter (fun r => r.api_key == api_key)).map
    (fun r => r.updated_at))
  { db with demo_sessions := db.demo_sessions.map (fun r =>
      if r.api_key == api_key && some r.updated_at == m then
        { r with late_bytes := some lateB, updated_at := current_time }
      else r) }

/-- `_get_latest_session_id`: `SELECT session_id FROM demo_sessions WHERE
start_time = (SELECT MAX(start_time) FROM demo_sessions WHERE api_key = :k);`
— note the outer SELECT has no api_key filter.  `scalar_one_or_none` yields
`none` on zero rows and raises MultipleResultsFound on more than one. -/
def _get_latest_session_id (db : DB) (api_key : String) : Except DBError (Option String) :=
  let m := maxNat? ((db.demo_sessions.filter (fun r => r.api_key == api_key)).map
    (fun r => r.start_time))
  match m with
  | none => .ok none
  | some mx =>
    match db.demo_sessions.filter (fun r => r.start_time == mx) with
    | [] => .ok none
    | [r] => .ok (some r.session_id)
    | _ => .error .multipleResults

/-- `update_api_key`: `UPDATE api_keys SET api_key = :new_api_key
WHERE steam_id = :steam_id` — no other column is touched. -/
def update_api_key (db : DB) (steam_id new_api_key : String) : DB :=
  { db with api_keys := db.api_keys.map (fun r =>
      if r.steam_id == steam_id then { r with api_key := new_api_key } else r) }

/-- The `DemoWrapper` dataclass: positional copy of a `demo_sessions` row
(`session_id` lands in `demo_id`), `map_picture_url` left at its default. -/
structure DemoWrapper where
  demo_id : String
  api_key : String
  demo_name : String
  active : Bool
  start_time : Nat
  end_time : Option Nat
  fake_ip : String
  map : String
  steam_api_data : Option String
  ingested : Bool
  demo_oid : Option Nat
  late_bytes : Option (List Nat)
  created_at : Nat
  updated_at : Nat
  map_picture_url : Option String
deriving DecidableEq

/-- `DemoWrapper.from_db_row`: positional construction from the row, then
`api_key` is overwritten with the literal string "0" when `hide_api_key`. -/
def DemoWrapper.from_db_row (row : SessionRow) (hide_api_key : Bool) : DemoWrapper :=
  let result : DemoWrapper := {
    demo_id := row.session_id
    api_key := row.api_key
    demo_name := row.demo_name
    active := row.active
    start_time := row.start_time
    end_time := row.end_time
    fake_ip := row.fake_ip
    map := row.map
    steam_api_data := row.steam_api_data
    ingested := row.ingested
    demo_oid := row.demo_oid
    late_bytes := row.late_bytes
    created_at := row.created_at
    updated_at := row.updated_at
    map_picture_url := none }
  if hide_api_key then { result with api_key := "0" } else result

/-- `get_user_demo_info`: `SELECT * FROM demo_sessions WHERE api_key = :k`;
returns `none` when no row matched, otherwise wraps every row with
`DemoWrapper.from_db_row` at the call's default `hide_api_key = true`. -/
def get_user_demo_info (db : DB) (api_key : String) : Option (List DemoWrapper) :=
  let result := db.demo_sessions.filter (fun r => r.api_key == api_key)
  if result.isEmpty then none
  else some (result.map (fun row => DemoWrapper.from_db_row row true))

/-- Modelled from the spec: the StartSession HTTP handler is not under src;
per §4.2 it checks for an existing `active=true` row for the credential
(`_check_is_active`) and fails with `SessionAlreadyActive` before inserting
via `_start_session`. -/
def startSession (db : DB) (api_key session_id demo_name fake_ip map_str : String)
    (now : Nat) : Except DBError DB :=
  if _check_is_active db api_key then .error .sessionAlreadyActive
  else .ok (_start_session db api_key session_id demo_name fake_ip map_str now)

/-- Modelled from the spec: the CloseSessionWithDemo handler is not under src;
per §4.2 it fails with `NotFound` when no row matches `(apiKey, sessionId)`,
otherwise runs `_close_session_with_demo`. -/
def closeSessionWithDemo (db : DB) (api_key session_id : String)
    (current_time : Nat) : Except DBError DB :=
  if db.demo_sessions.any (fun r => r.api_key == api_key && r.session_id == session_id) then
    .ok (_close_session_with_demo db api_key session_id current_time)
  else .error .notFound

/-- Modelled from the spec: SubmitVerdict is not under src (src holds only the
`reviews` table with PRIMARY KEY `(session_id, target_steam_id,
reviewer_steam_id)` in migration `b941ebee3091`); per §4.5 a duplicate triple
fails with `DuplicateReview`, a subject with no analysis record fails with
`UnknownSubject`, otherwise the verdict row is inserted. -/
def submitVerdict (db : DB) (session_id target reviewer verdict : String)
    (t : Nat) : Except DBError DB :=
  if db.reviews.any (fun r =>
      r.session_id == session_id && r.target_steam_id == target &&
      r.reviewer_steam_id == reviewer) then
    .error .duplicateReview
  else if db.analysis.any (fun a =>
      a.session_id == session_id && a.target_steam_id == target) then
    .ok { db with reviews := db.reviews ++ [{
        session_id := session_id
        target_steam_id := target
        reviewer_steam_id := reviewer
        created_at := t
        verdict := verdict }] }
  else .error .unknownSubject

/-- Request-level semantics of `SubmitVerdict`: a failed call rolls back, so
the store is unchanged and the error is surfaced alongside it. -/
def submitVerdictRun (db : DB) (session_id target reviewer verdict : String)
    (t : Nat) : DB × Option DBError :=
  match submitVerdict db session_id target reviewer verdict t with
  | .ok db2 => (db2, none)
  | .error e => (db, some e)

/-- `Tally(sessionId, targetIdentity)` at one verdict value: the count of
matching review rows. -/
def tally (db : DB) (session_id target verdict : String) : Nat :=
  (db.reviews.filter (fun r =>
    r.session_id == session_id && r.target_steam_id == target &&
    r.verdict == verdict)).length

/-- Invariant: for every credential at most one `active=true` session row. -/
def atMostOneActive (db : DB) : Prop :=
  db.demo_sessions.Pairwise (fun r1 r2 =>
    ¬(r1.active = true ∧ r2.active = true ∧ r1.api_key = r2.api_key))

instance (db : DB) : Decidable (atMostOneActive db) := by
  unfold atMostOneActive
  infer_instance

/-- Invariant: every `demo_oid` stored on a session row refers to a blob that
has been written. -/
def blobRefsValidB (db : DB) : Bool :=
  db.demo_sessions.all (fun r =>
    match r.demo_oid with
    | none => true
    | some oid => db.blobs.any (fun b => b == oid))

theorem maxNat?_mem {l : List Nat} {m : Nat} (h : maxNat? l = some m) : m ∈ l := by
  induction l with
  | nil => simp [maxNat?] at h
  | cons x xs ih =>
    rw [maxNat?] at h
    cases hx : maxNat? xs with
    | none => rw [hx] at h; simp at h; simp [h]
    | some m2 =>
      rw [hx] at h
      simp at h
      by_cases hc : x ≤ m2
      · rw [if_pos hc] at h
        subst h
        exact List.mem_cons_of_mem _ (ih hx)
      · rw [if_neg hc] at h
        rw [← h]
        exact List.mem_cons_self x xs

theorem maxNat?_eq_some {l : List Nat} {a : Nat} (ha : a ∈ l) (hub : ∀ x ∈ l, x ≤ a) :
    maxNat? l = some a := by
  induction l with
  | nil => cases ha
  | cons x xs ih =>
    rw [maxNat?]
    cases hx : maxNat? xs with
    | none =>
      cases xs with
      | nil =>
        simp at ha
        simp [ha]
      | cons y ys =>
        rw [maxNat?] at hx
        cases h2 : maxNat? ys <;> rw [h2] at hx <;> cases hx
    | some m =>
      have hm : m ∈ xs := maxNat?_mem hx
      have hxa : x ≤ a := hub x (List.mem_cons_self x xs)
      have hma : m ≤ a := hub m (List.mem_cons_of_mem _ hm)
      rcases List.mem_cons.mp ha with rfl | hax
      · have heq : (if a ≤ m then m else a) = a := by
          split <;> omega
        simp [heq]
      · have hsome : maxNat? xs = some a :=
          ih hax (fun y hy => hub y (List.mem_cons_of_mem _ hy))
        rw [hx] at hsome
        injection hsome with h3
        subst h3
        simp [hxa]

/-- C1: for every credential at most one session with `active=true` exists at
any instant: when the credential already has an active session, `StartSession`
fails with `SessionAlreadyActive` instead of inserting a second active row, and
a successful `StartSession` preserves the one-active-session-per-credential
invariant. -/
theorem startSession_unique_active (db : DB) (k sid name ip mp : String) (now : Nat)
    (h : atMostOneActive db) :
    (_check_is_active db k = true →
      startSession db k sid name ip mp now = .error .sessionAlreadyActive) ∧
    (∀ db', startSession db k sid name ip mp now = .ok db' → atMostOneActive db') := by
  constructor
  · intro hact
    simp [startSession, hact]
  · intro db' hok
    by_cases hact : _check_is_active db k = true
    · simp [startSession, hact] at hok
    · simp [startSession, hact] at hok
      subst hok
      unfold atMostOneActive _start_session
      rw [List.pairwise_append]
      refine ⟨h, List.pairwise_singleton _ _, ?_⟩
      intro a ha b hb
      simp at hb
      subst hb
      unfold _check_is_active at hact
      simp [List.any_eq_true] at hact
      intro hcontra
      exact absurd hcontra.1 (by simpa using hact a ha hcontra.2.2)

/-- Concrete store for the C1 witness: credential `k1` with one active session. -/
def dbC1 : DB := {
  api_keys := [{ steam_id := "u1", api_key := "k1", created_at := 0, updated_at := 0 }]
  demo_sessions := [{ session_id := "s1", api_key := "k1", demo_name := "d1", active := true
                      start_time := 1, end_time := none, fake_ip := "ip", map := "m"
                      steam_api_data := none, ingested := false, demo_oid := none
                      late_bytes := none, created_at := 1, updated_at := 1 }]
  reviews := []
  analysis := []
  blobs := []
  nextOid := 0 }

/-- C1 witness: a second `StartSession` for credential `k1`, which already has
the active session `s1`, fails with `SessionAlreadyActive`. -/
theorem startSession_unique_active_witness :
    startSession dbC1 "k1" "s2" "d2" "ip" "m" 5 = .error .sessionAlreadyActive :=
  (startSession_unique_active dbC1 "k1" "s2" "d2" "ip" "m" 5 (by decide)).1 (by decide)

/-- C6: `CloseSession` sets `active=false`, `end_time=at` and `updated_at=at`
on every session of the credential that is currently active and leaves every
row that is not active or belongs to a different credential unchanged
(pointwise description of the UPDATE), and it is a no-op when the credential
has no active session. -/
theorem close_session_spec (db : DB) (k : String) (t : Nat) :
    (∀ i : Nat, (_close_session db k t).demo_sessions[i]? =
      (db.demo_sessions[i]?).map (fun r =>
        if r.active = true ∧ r.api_key = k then closeRow t r else r)) ∧
    ((∀ r ∈ db.demo_sessions, ¬(r.active = true ∧ r.api_key = k)) →
      _close_session db k t = db) := by
  have hfun : ∀ r : SessionRow,
      (if r.active && r.api_key == k then closeRow t r else r) =
      (if r.active = true ∧ r.api_key = k then closeRow t r else r) := by
    intro r
    by_cases h1 : r.active = true
    · by_cases h2 : r.api_key = k
      · simp [h1, h2]
      · simp [h1, h2]
    · simp [h1]
  constructor
  · intro i
    unfold _close_session
    simp only [List.getElem?_map]
    cases db.demo_sessions[i]? with
    | none => rfl
    | some r => exact congrArg some (hfun r)
  · intro hno
    unfold _close_session
    have hmap : ∀ l : List SessionRow, (∀ r ∈ l, ¬(r.active = true ∧ r.api_key = k)) →
        l.map (fun r => if r.active && r.api_key == k then closeRow t r else r) = l := by
      intro l hl
      induction l with
      | nil => rfl
      | cons r rs ih =>
        have hr := hl r (List.mem_cons_self r rs)
        have hcond : (r.active && r.api_key == k) = false := by
          by_cases h1 : r.active = true
          · by_cases h2 : r.api_key = k
            · exact absurd ⟨h1, h2⟩ hr
            · simp [h1, h2]
          · simp [h1]
        simp only [List.map_cons, hcond, Bool.false_eq_true, if_false]
        rw [ih (fun x hx => hl x (List.mem_cons_of_mem _ hx))]
    rw [hmap db.demo_sessions hno]

/-- C6 witness: closing for `k1` in `dbC1` closes the active session `s1`. -/
theorem close_session_spec_witness :
    (_close_session dbC1 "k1" 7).demo_sessions[0]? =
      some { session_id := "s1", api_key := "k1", demo_name := "d1",
             active := false, start_time := 1, end_time := some 7,
             fake_ip := "ip", map := "m", steam_api_data := none,
             ingested := false, demo_oid := none, late_bytes := none,
             created_at := 1, updated_at := 7 } :=
  ((close_session_spec dbC1 "k1" 7).1 0).trans (by decide)

/-- C3: `CloseSessionWithDemo` fails with `NotFound` when no session row
matches `(apiKey, sessionId)`; on success it sets `active=false`, `end_time=at`
and the freshly obtained blob reference on exactly the matching rows, leaving
every other row unchanged. -/
theorem closeSessionWithDemo_spec (db : DB) (k sid : String) (t : Nat) :
    ((∀ r ∈ db.demo_sessions, ¬(r.api_key = k ∧ r.session_id = sid)) →
      closeSessionWithDemo db k sid t = .error .notFound) ∧
    (∀ db', closeSessionWithDemo db k sid t = .ok db' →
      ∀ i : Nat, db'.demo_sessions[i]? = (db.demo_sessions[i]?).map (fun r =>
        if r.api_key = k ∧ r.session_id = sid then
          { r with active := false, end_time := some t, demo_oid := some db.nextOid,
                   updated_at := t }
        else r)) := by
  constructor
  · intro hno
    have hany : db.demo_sessions.any (fun r => r.api_key == k && r.session_id == sid) = false := by
      rw [List.any_eq_false]
      intro r hr
      have hnr := hno r hr
      by_cases h1 : r.api_key = k
      · by_cases h2 : r.session_id = sid
        · exact absurd ⟨h1, h2⟩ hnr
        · simp [h1, h2]
      · simp [h1]
    simp [closeSessionWithDemo, hany]
  · intro db' hok i
    have hfun : ∀ r : SessionRow,
        (if r.api_key == k && r.session_id == sid then
          { r with active := false, end_time := some t, demo_oid := some db.nextOid,
                   updated_at := t }
        else r) =
        (if r.api_key = k ∧ r.session_id = sid then
          { r with active := false, end_time := some t, demo_oid := some db.nextOid,
                   updated_at := t }
        else r) := by
      intro r
      by_cases h1 : r.api_key = k
      · by_cases h2 : r.session_id = sid
        · simp [h1, h2]
        · simp [h1, h2]
      · simp [h1]
    by_cases hany : db.demo_sessions.any (fun r => r.api_key == k && r.session_id == sid) = true
    · simp only [closeSessionWithDemo, hany, if_true, Except.ok.injEq] at hok
      subst hok
      unfold _close_session_with_demo updateSessionWithDemo writeBlob
      simp only [List.getElem?_map]
      cases db.demo_sessions[i]? with
      | none => rfl
      | some r => exact congrArg some (hfun r)
    · simp [closeSessionWithDemo, hany] at hok

/-- C3 witness: with no row matching `("k2", "sX")`, the close fails with
`NotFound`. -/
theorem closeSessionWithDemo_spec_witness :
    closeSessionWithDemo dbC1 "k2" "sX" 3 = .error .notFound :=
  (closeSessionWithDemo_spec dbC1 "k2" "sX" 3).1 (by decide)

/-- C7: in `CloseSessionWithDemo` the blob is written and its reference
obtained before the session row is updated: at every observable store state of
the operation, every session row holding a `demo_oid` refers to a blob that
has been written. -/
theorem close_with_demo_no_dangling (db : DB) (k sid : String) (t : Nat)
    (h : blobRefsValidB db = true) :
    ∀ s ∈ closeWithDemoStates db k sid t, blobRefsValidB s = true := by
  intro s hs
  unfold blobRefsValidB at h
  rw [List.all_eq_true] at h
  have hgrow : ∀ r : SessionRow, r ∈ db.demo_sessions →
      (match r.demo_oid with
        | none => true
        | some oid => (db.blobs ++ [db.nextOid]).any (fun b => b == oid)) = true := by
    intro r hr
    have hcur := h r hr
    cases hoid : r.demo_oid with
    | none => simp
    | some oid =>
      simp only [hoid] at hcur ⊢
      rw [List.any_append, hcur]
      simp
  simp only [closeWithDemoStates, List.mem_cons, List.not_mem_nil, or_false] at hs
  rcases hs with rfl | rfl | rfl
  · exact List.all_eq_true.mpr h
  · unfold writeBlob blobRefsValidB
    rw [List.all_eq_true]
    intro r hr
    exact hgrow r hr
  · unfold _close_session_with_demo updateSessionWithDemo writeBlob blobRefsValidB
    rw [List.all_eq_true]
    intro r2 hr2
    simp only [List.mem_map] at hr2
    obtain ⟨r, hr, rfl⟩ := hr2
    by_cases hc : (r.api_key == k && r.session_id == sid) = true
    · simp only [hc, if_true]
      simp [List.any_append]
    · simp only [hc, if_false]
      exact hgrow r hr

/-- C7 witness: running the close-with-demo on `dbC1` keeps the
no-dangling-blob-reference invariant at the final state. -/
theorem close_with_demo_no_dangling_witness :
    blobRefsValidB (_close_session_with_demo dbC1 "k1" "s1" 5) = true :=
  close_with_demo_no_dangling dbC1 "k1" "s1" 5 (by decide)
    (_close_session_with_demo dbC1 "k1" "s1" 5) (by decide)

/-- C5: `AttachLateBytes` sets `late_bytes` and bumps `updated_at` to the call
time on exactly the single session of the credential whose `updated_at` is
maximal, and leaves every other row (other sessions of the credential and all
sessions of other credentials) unchanged. -/
theorem late_bytes_targets_latest (db : DB) (k : String) (b : List Nat) (t : Nat)
    (s : SessionRow) (hs : s ∈ db.demo_sessions) (hk : s.api_key = k)
    (hmax : ∀ r ∈ db.demo_sessions, r.api_key = k → r = s ∨ r.updated_at < s.updated_at) :
    (_late_bytes db k b t).demo_sessions =
      db.demo_sessions.map (fun r =>
        if r = s then { s with late_bytes := some b, updated_at := t } else r) := by
  have hmem : s.updated_at ∈
      (db.demo_sessions.filter (fun r => r.api_key == k)).map (fun r => r.updated_at) := by
    apply List.mem_map_of_mem
    rw [List.mem_filter]
    exact ⟨hs, by simp [hk]⟩
  have hub : ∀ x ∈ (db.demo_sessions.filter (fun r => r.api_key == k)).map
      (fun r => r.updated_at), x ≤ s.updated_at := by
    intro x hx
    rw [List.mem_map] at hx
    obtain ⟨r, hr, rfl⟩ := hx
    rw [List.mem_filter] at hr
    have hrk : r.api_key = k := by simpa using hr.2
    rcases hmax r hr.1 hrk with rfl | hlt
    · exact Nat.le_refl _
    · exact Nat.le_of_lt hlt
  have hmx : maxNat? ((db.demo_sessions.filter (fun r => r.api_key == k)).map
      (fun r => r.updated_at)) = some s.updated_at :=
    maxNat?_eq_some hmem hub
  simp only [_late_bytes, hmx]
  apply List.map_congr_left
  intro r hr
  by_cases he : r = s
  · subst he
    simp [hk]
  · rw [if_neg he]
    by_cases h1 : r.api_key = k
    · rcases hmax r hr h1 with rfl | hlt
      · exact absurd rfl he
      · have hne : ¬(r.updated_at = s.updated_at) := Nat.ne_of_lt hlt
        simp [h1, hne]
    · simp [h1]

/-- The C5 scenario store: for credential `k1`, session `s1` is started at
time 1 and closed at time 2, then session `s2` is started at time 3 and closed
at time 4 — so `s2` is the most recently touched session. -/
def dbC5 : DB :=
  _close_session (_start_session (_close_session (_start_session
    { api_keys := [{ steam_id := "u1", api_key := "k1", created_at := 0, updated_at := 0 }],
      demo_sessions := [], reviews := [], analysis := [], blobs := [], nextOid := 0 }
    "k1" "s1" "d1" "ip" "m" 1) "k1" 2) "k1" "s2" "d2" "ip" "m" 3) "k1" 4

/-- The `s2` row of `dbC5` (closed at time 4, the latest touched session). -/
def rowS2 : SessionRow :=
  { session_id := "s2", api_key := "k1", demo_name := "d2", active := false,
    start_time := 3, end_time := some 4, fake_ip := "ip", map := "m",
    steam_api_data := none, ingested := false, demo_oid := none,
    late_bytes := none, created_at := 3, updated_at := 4 }

/-- C5 witness: after closing `s1` and then starting and closing `s2` for the
same credential, `AttachLateBytes` patches exactly `s2` and leaves `s1`'s
`late_bytes` unchanged. -/
theorem late_bytes_targets_latest_witness :
    (_late_bytes dbC5 "k1" [9] 5).demo_sessions =
      dbC5.demo_sessions.map (fun r =>
        if r = rowS2 then { rowS2 with late_bytes := some [9], updated_at := 5 }
        else r) :=
  late_bytes_targets_latest dbC5 "k1" [9] 5 rowS2 (by decide) (by decide) (by decide)

/-- Store exhibiting the C2 failure: `k1` owns `s1` with `start_time = 3`, a
different credential `k2` owns `s2` with the same `start_time = 3`. -/
def dbC2 : DB :=
  { api_keys := [],
    demo_sessions := [
      { session_id := "s1", api_key := "k1", demo_name := "d1", active := false,
        start_time := 3, end_time := some 4, fake_ip := "ip", map := "m",
        steam_api_data := none, ingested := false, demo_oid := none,
        late_bytes := none, created_at := 3, updated_at := 4 },
      { session_id := "s2", api_key := "k2", demo_name := "d2", active := false,
        start_time := 3, end_time := some 4, fake_ip := "ip", map := "m",
        steam_api_data := none, ingested := false, demo_oid := none,
        late_bytes := none, created_at := 3, updated_at := 4 }],
    reviews := [], analysis := [], blobs := [], nextOid := 0 }

/-- C2: the outer SELECT of `_get_latest_session_id` does not filter by
`api_key`, so a session of a *different* credential with the same `start_time`
also matches; `GetLatestSessionId("k1")` then sees two rows and
`scalar_one_or_none` raises MultipleResultsFound instead of returning `s1`,
the session of `k1` with maximal `start_time`. -/
theorem get_latest_session_id_cross_credential :
    _get_latest_session_id dbC2 "k1" = .error .multipleResults ∧
    (∃ r ∈ dbC2.demo_sessions,
      r.api_key = "k1" ∧ r.session_id = "s1" ∧ r.start_time = 3) ∧
    (∀ r ∈ dbC2.demo_sessions, r.api_key = "k1" → r.start_time ≤ 3) := by
  refine ⟨rfl, by decide, by decide⟩

/-- Store for the C4 counterexample and amended witness: one credential `u1`
provisioned at time 0. -/
def dbC4 : DB :=
  { api_keys := [{ steam_id := "u1", api_key := "k1", created_at := 0, updated_at := 0 }],
    demo_sessions := [], reviews := [], analysis := [], blobs := [], nextOid := 0 }

/-- C4 counterexample: rotating `u1`'s key overwrites `api_key` but leaves
`updated_at` at its old value 0 — the UPDATE statement of `update_api_key`
never touches `updated_at`, so the claimed bump does not happen. -/
theorem update_api_key_no_bump :
    update_api_key dbC4 "u1" "k2" =
      { dbC4 with api_keys := [{ steam_id := "u1", api_key := "k2",
                                 created_at := 0, updated_at := 0 }] } := by
  decide

/-- C4 amended: `Rotate` overwrites the matching credential's `api_key` with
the new key and leaves every other column (`updated_at` included) and every
other credential's row unchanged. -/
theorem update_api_key_amended (db : DB) (sid nk : String) :
    ∀ i : Nat, (update_api_key db sid nk).api_keys[i]? =
      (db.api_keys[i]?).map (fun r =>
        if r.steam_id = sid then { r with api_key := nk } else r) := by
  intro i
  unfold update_api_key
  simp only [List.getElem?_map]
  cases db.api_keys[i]? with
  | none => rfl
  | some r =>
    by_cases h1 : r.steam_id = sid
    · simp [h1]
    · simp [h1]

/-- C4 amended witness: rotating `u1` overwrites the key, `updated_at` stays. -/
theorem update_api_key_amended_witness :
    (update_api_key dbC4 "u1" "k2").api_keys[0]? =
      some { steam_id := "u1", api_key := "k2", created_at := 0, updated_at := 0 } :=
  (update_api_key_amended dbC4 "u1" "k2" 0).trans (by decide)

theorem submitVerdictRun_of_existing (db2 : DB) (sid tgt rev v' : String) (t' : Nat)
    (hdup : db2.reviews.any (fun r =>
      r.session_id == sid && r.target_steam_id == tgt &&
      r.reviewer_steam_id == rev) = true) :
    submitVerdictRun db2 sid tgt rev v' t' = (db2, some .duplicateReview) := by
  unfold submitVerdictRun submitVerdict
  rw [if_pos hdup]

/-- C8: after a first successful `SubmitVerdict` for a triple, a second call
with the same `(sessionId, targetIdentity, reviewerIdentity)` fails with
`DuplicateReview`, the store stays exactly as after the first call, and hence
every tally is unchanged from its state after the first call. -/
theorem submitVerdict_second_duplicate (db db' : DB) (sid tgt rev v v' : String)
    (t t' : Nat) (h : submitVerdict db sid tgt rev v t = .ok db') :
    submitVerdictRun db' sid tgt rev v' t' = (db', some .duplicateReview) ∧
    (∀ w, tally (submitVerdictRun db' sid tgt rev v' t').1 sid tgt w =
      tally db' sid tgt w) := by
  have hdup2 : db'.reviews.any (fun r =>
      r.session_id == sid && r.target_steam_id == tgt &&
      r.reviewer_steam_id == rev) = true := by
    unfold submitVerdict at h
    by_cases hdup : db.reviews.any (fun r =>
        r.session_id == sid && r.target_steam_id == tgt &&
        r.reviewer_steam_id == rev) = true
    · rw [if_pos hdup] at h
      cases h
    · rw [if_neg hdup] at h
      by_cases hsub : db.analysis.any (fun a =>
          a.session_id == sid && a.target_steam_id == tgt) = true
      · rw [if_pos hsub] at h
        injection h with h2
        rw [← h2]
        simp [List.any_append]
      · rw [if_neg hsub] at h
        cases h
  have hrun := submitVerdictRun_of_existing db' sid tgt rev v' t' hdup2
  exact ⟨hrun, fun w => by rw [hrun]⟩

/-- Store for the C8 witness: one analysis record for `(s1, p1)`, no reviews. -/
def dbC8 : DB :=
  { api_keys := [], demo_sessions := [], reviews := [],
    analysis := [{ session_id := "s1", target_steam_id := "p1",
                   created_at := 0, detection_count := 2 }],
    blobs := [], nextOid := 0 }

/-- The store after the first successful verdict of the C8 witness. -/
def dbC8' : DB :=
  { dbC8 with reviews := [{ session_id := "s1", target_steam_id := "p1",
                            reviewer_steam_id := "r1", created_at := 1,
                            verdict := "cheater" }] }

/-- C8 witness: reviewer `r1` votes once on `(s1, p1)`; the repeated vote fails
with `DuplicateReview` and the store is unchanged. -/
theorem submitVerdict_second_duplicate_witness :
    submitVerdictRun dbC8' "s1" "p1" "r1" "bot" 2 =
      (dbC8', some .duplicateReview) :=
  (submitVerdict_second_duplicate dbC8 dbC8' "s1" "p1" "r1" "cheater" "bot" 1 2
    (by rfl)).1

/-- C9: `get_user_demo_info` returns `none` exactly when the credential has no
session rows, and whenever it returns a list that list is non-empty. -/
theorem get_user_demo_info_none_iff (db : DB) (k : String) :
    (get_user_demo_info db k = none ↔
      db.demo_sessions.filter (fun r => r.api_key == k) = []) ∧
    (∀ l, get_user_demo_info db k = some l → l ≠ []) := by
  constructor
  · unfold get_user_demo_info
    by_cases he : (db.demo_sessions.filter (fun r => r.api_key == k)).isEmpty = true
    · rw [if_pos he]
      rw [List.isEmpty_iff] at he
      simp [he]
    · rw [if_neg he]
      rw [List.isEmpty_iff] at he
      simp [he]
  · intro l hl
    unfold get_user_demo_info at hl
    by_cases he : (db.demo_sessions.filter (fun r => r.api_key == k)).isEmpty = true
    · rw [if_pos he] at hl
      cases hl
    · rw [if_neg he] at hl
      injection hl with h2
      subst h2
      rw [List.isEmpty_iff] at he
      simp only [ne_eq, List.map_eq_nil_iff]
      exact he

/-- C9 witness: credential `k2` has no sessions in `dbC1`, so the listing
returns `none` rather than an empty list. -/
theorem get_user_demo_info_none_iff_witness :
    get_user_demo_info dbC1 "k2" = none :=
  (get_user_demo_info_none_iff dbC1 "k2").1.mpr (by decide)

/-- C10: every wrapper returned by `get_user_demo_info` carries the literal
api key "0" — the redaction is applied to every returned row — and the wrapper
built from a row does not depend on the row's stored api key value. -/
theorem get_user_demo_info_redacts (db : DB) (k x : String) :
    (∀ l, get_user_demo_info db k = some l → ∀ w ∈ l, w.api_key = "0") ∧
    (∀ row : SessionRow,
      DemoWrapper.from_db_row { row with api_key := x } true =
        DemoWrapper.from_db_row row true) := by
  constructor
  · intro l hl w hw
    unfold get_user_demo_info at hl
    by_cases he : (db.demo_sessions.filter (fun r => r.api_key == k)).isEmpty = true
    · rw [if_pos he] at hl
      cases hl
    · rw [if_neg he] at hl
      injection hl with h2
      subst h2
      rw [List.mem_map] at hw
      obtain ⟨r, hr, rfl⟩ := hw
      rfl
  · intro row
    rfl

/-- C10 witness: the wrapper of `rowS2` is the same whether the stored api key
is `k1` or any other secret, and its `api_key` field is "0". -/
theorem get_user_demo_info_redacts_witness :
    DemoWrapper.from_db_row { rowS2 with api_key := "secret" } true =
      DemoWrapper.from_db_row rowS2 true :=
  (get_user_demo_info_redacts dbC1 "k1" "secret").2 rowS2

end SteamApi
